import Mathlib

/-!
Verification of the pgctl privilege-management subsystem (package postgresctl).

The Go controller is embedded shallowly: every operation is a pure Lean
function from an environment of external collaborators (statement execution,
existence queries, scoped connections) to the trace of server events it issues
together with an optional error string.  SQL statements are the exact strings
the Go code builds; Go error wrapping with fmt.Errorf("...: %w", err) is
modelled as string concatenation.
-/

namespace Pgctl

/-- An observable server event: a statement executed on the main connection of the
controller, or the lifecycle of a per-database scoped connection
(`sql.Open` / `Exec` / `Close` in `Tables` and `TransferPublicSchemaOwnership`). -/
inductive Ev where
  | stmt (sql : String)
  | connOpen (db : String)
  | connStmt (db : String) (sql : String)
  | connClose (db : String)
  deriving DecidableEq, Repr

/-- External collaborators of the controller.  `exec s = none` means the server
executed statement `s` successfully, `some e` that it failed with error `e`.
`queryUserExists` / `queryDbExists` are the catalog queries behind
`UserExists` / `DatabaseExists`.  `connOpen db` opens a connection scoped to
`db` (`none` = opened); `connExec db s` executes `s` on that scoped connection. -/
structure Env where
  exec : String → Option String
  queryUserExists : String → Except String Bool
  queryDbExists : String → Except String Bool
  connOpen : String → Option String
  connExec : String → String → Option String

/-- Controller configuration: `WithBadUsernames` appends extra names to the
package-level `baseUsers` list at construction time. -/
structure Ctl where
  extraBadUsernames : List String

/-- Go `var baseDBs = []string{"postgres", "template0", "template1"}` -/
def baseDBs : List String := ["postgres", "template0", "template1"]

/-- Go `var baseUsers = []string{"postgres"}`, extended by `WithBadUsernames`. -/
def baseUsers (c : Ctl) : List String := "postgres" :: c.extraBadUsernames

/-- Go helper `contains(s []string, e string) bool`. -/
def contains : List String → String → Bool
  | [], _ => false
  | a :: s, e => if a = e then true else contains s e

/-- Go `validateDBName`: rejects the empty string and the reserved base databases.
Returns the Go error message, or `none` when the name is accepted. -/
def validateDBName (dbName : String) : Option String :=
  if dbName = "" then some ("database name cannot be empty")
  else if contains baseDBs dbName then some (dbName ++ " is a disallowed database name")
  else none

/-- Go `validateUsername`: rejects the empty string and reserved usernames. -/
def validateUsername (c : Ctl) (username : String) : Option String :=
  if username = "" then some ("username cannot be empty")
  else if contains (baseUsers c) username then some ("username " ++ username ++ " is reserved")
  else none

/-- Go `ErrInvalidGrant = fmt.Errorf("invalid grant")` -/
def ErrInvalidGrant : String := "invalid grant"

/-- Go `ErrUserDoesNotExist = fmt.Errorf("user does not exist")` -/
def ErrUserDoesNotExist : String := "user does not exist"

/-- Go `ErrDBDoesNotExist = fmt.Errorf("database does not exist")` -/
def ErrDBDoesNotExist : String := "database does not exist"

/-- The fixed privilege catalog, `var grants = map[string]string{...}`,
as an association list. -/
def grants : List (String × String) :=
  [("SELECT", "SELECT"), ("INSERT", "INSERT"), ("UPDATE", "UPDATE"),
   ("DELETE", "DELETE"), ("TRUNCATE", "TRUNCATE"), ("REFERENCES", "REFERENCES"),
   ("TRIGGER", "TRIGGER"), ("CONNECT", "CONNECT"), ("TEMPORARY", "TEMPORARY"),
   ("EXECUTE", "EXECUTE"), ("USAGE", "USAGE"), ("CREATE", "CREATE")]

/-- Go `validateGrant`: rejects the empty string and names outside the catalog. -/
def validateGrant (grantName : String) : Option String :=
  if grantName = "" then some ErrInvalidGrant
  else if (grants.find? (fun p => p.fst == grantName)).isSome then none
  else some ErrInvalidGrant

/-- ASCII uppercasing of one character, as `strings.ToUpper` acts on the
ASCII range (the only range the catalog and the call sites exercise). -/
def toUpperChar (ch : Char) : Char :=
  if 97 ≤ ch.toNat ∧ ch.toNat ≤ 122 then Char.ofNat (ch.toNat - 32) else ch

/-- Go `strings.ToUpper`, modelled character-by-character on the ASCII range. -/
def stringsToUpper (s : String) : String := String.mk (s.data.map toUpperChar)

/-- The observable outcome of an operation: the ordered trace of server events it
issued, and `none` on success or `some e` when it returned error `e`. -/
abbrev Res := List Ev × Option String

/-- Go `UserExists`: validates the username, then queries `pg_roles`. -/
def UserExists (c : Ctl) (env : Env) (username : String) : Except String Bool :=
  match validateUsername c username with
  | some e => Except.error e
  | none =>
    match env.queryUserExists username with
    | Except.error e => Except.error ("error checking if user exists: " ++ e)
    | Except.ok b => Except.ok b

/-- Go `DatabaseExists`: validates the database name, then queries `pg_database`
(the query error is returned unwrapped). -/
def DatabaseExists (env : Env) (dbName : String) : Except String Bool :=
  match validateDBName dbName with
  | some e => Except.error e
  | none =>
    match env.queryDbExists dbName with
    | Except.error e => Except.error e
    | Except.ok b => Except.ok b

/-- Go `PostgresController.Grant` from grantcontroller.go. -/
def Grant (c : Ctl) (env : Env) (grantName0 dbName username : String) : Res :=
  match validateDBName dbName with
  | some e => ([], some ("error validating database name: " ++ e))
  | none =>
  match validateUsername c username with
  | some e => ([], some ("error validating username: " ++ e))
  | none =>
  let grantName := stringsToUpper grantName0
  match validateGrant grantName with
  | some e => ([], some ("error validating grant: " ++ e))
  | none =>
  if grantName = "CONNECT" ∨ grantName = "TEMPORARY" then
    let s := "GRANT " ++ grantName ++ " ON DATABASE \"" ++ dbName ++ "\" TO \"" ++ username ++ "\""
    ([Ev.stmt s], env.exec s)
  else if grantName = "USAGE" then
    let s1 := "GRANT USAGE ON SCHEMA public TO \"" ++ username ++ "\""
    match env.exec s1 with
    | some e => ([Ev.stmt s1], some ("error granting schema USAGE: " ++ e))
    | none =>
      let s2 := "ALTER DEFAULT PRIVILEGES IN SCHEMA public GRANT USAGE ON SEQUENCES TO \"" ++ username ++ "\""
      ([Ev.stmt s1, Ev.stmt s2], env.exec s2)
  else if grantName = "CREATE" then
    let s := "GRANT CREATE ON SCHEMA public TO \"" ++ username ++ "\""
    match env.exec s with
    | some e => ([Ev.stmt s], some ("error granting schema CREATE: " ++ e))
    | none => ([Ev.stmt s], none)
  else if grantName = "EXECUTE" then
    let s1 := "GRANT EXECUTE ON ALL FUNCTIONS IN SCHEMA public TO \"" ++ username ++ "\""
    match env.exec s1 with
    | some e => ([Ev.stmt s1], some ("error granting EXECUTE: " ++ e))
    | none =>
      let s2 := "ALTER DEFAULT PRIVILEGES IN SCHEMA public GRANT EXECUTE ON FUNCTIONS TO \"" ++ username ++ "\""
      ([Ev.stmt s1, Ev.stmt s2], env.exec s2)
  else
    let s1 := "GRANT " ++ grantName ++ " ON ALL TABLES IN SCHEMA public TO \"" ++ username ++ "\""
    match env.exec s1 with
    | some e => ([Ev.stmt s1], some ("error granting table privileges: " ++ e))
    | none =>
      let s2 := "ALTER DEFAULT PRIVILEGES IN SCHEMA public GRANT " ++ grantName ++ " ON TABLES TO \"" ++ username ++ "\""
      ([Ev.stmt s1, Ev.stmt s2], env.exec s2)

/-- Go `PostgresController.Revoke` from grantcontroller.go. -/
def Revoke (c : Ctl) (env : Env) (grantName0 dbName username : String) : Res :=
  match validateDBName dbName with
  | some e => ([], some ("error validating database name: " ++ e))
  | none =>
  match validateUsername c username with
  | some e => ([], some ("error validating username: " ++ e))
  | none =>
  let grantName := stringsToUpper grantName0
  match validateGrant grantName with
  | some e => ([], some ("error validating grant: " ++ e))
  | none =>
  if grantName = "CONNECT" then
    let s := "REVOKE CONNECT ON DATABASE \"" ++ dbName ++ "\" FROM \"" ++ username ++ "\""
    match env.exec s with
    | some e => ([Ev.stmt s], some ("error revoking CONNECT privilege: " ++ e))
    | none => ([Ev.stmt s], none)
  else
    let s1 := "REVOKE " ++ grantName ++ " ON ALL TABLES IN SCHEMA public FROM \"" ++ username ++ "\""
    match env.exec s1 with
    | some e => ([Ev.stmt s1], some ("error revoking table privileges: " ++ e))
    | none =>
      let s2 := "\n\t\tALTER DEFAULT PRIVILEGES IN SCHEMA public\n\t\tREVOKE " ++ grantName ++ " ON TABLES FROM \"" ++ username ++ "\""
      match env.exec s2 with
      | some e => ([Ev.stmt s1, Ev.stmt s2], some ("error revoking default table privileges: " ++ e))
      | none =>
        if grantName = "USAGE" ∨ grantName = "CREATE" then
          let s3 := "REVOKE " ++ grantName ++ " ON SCHEMA public FROM \"" ++ username ++ "\""
          match env.exec s3 with
          | some e => ([Ev.stmt s1, Ev.stmt s2, Ev.stmt s3], some ("error revoking schema privilege: " ++ e))
          | none => ([Ev.stmt s1, Ev.stmt s2, Ev.stmt s3], none)
        else ([Ev.stmt s1, Ev.stmt s2], none)

/-- Go `PostgresController.GrantAll` from grantcontroller.go. -/
def GrantAll (c : Ctl) (env : Env) (dbName username : String) : Res :=
  match validateDBName dbName with
  | some e => ([], some ("error validating database name: " ++ e))
  | none =>
  match validateUsername c username with
  | some e => ([], some ("error validating username: " ++ e))
  | none =>
  match UserExists c env username with
  | Except.error e => ([], some ("error checking user: " ++ e))
  | Except.ok false => ([], some ErrUserDoesNotExist)
  | Except.ok true =>
  match DatabaseExists env dbName with
  | Except.error e => ([], some ("error checking database: " ++ e))
  | Except.ok false => ([], some ErrDBDoesNotExist)
  | Except.ok true =>
  let s1 := "GRANT CONNECT ON DATABASE \"" ++ dbName ++ "\" TO \"" ++ username ++ "\""
  match env.exec s1 with
  | some e => ([Ev.stmt s1], some ("grant CONNECT failed: " ++ e))
  | none =>
  let s2 := "GRANT USAGE, CREATE ON SCHEMA public TO \"" ++ username ++ "\""
  match env.exec s2 with
  | some e => ([Ev.stmt s1, Ev.stmt s2], some ("grant SCHEMA privileges failed: " ++ e))
  | none =>
  let s3 := "GRANT ALL PRIVILEGES ON ALL TABLES IN SCHEMA public TO \"" ++ username ++ "\""
  match env.exec s3 with
  | some e => ([Ev.stmt s1, Ev.stmt s2, Ev.stmt s3], some ("grant TABLES failed: " ++ e))
  | none =>
  let s4 := "GRANT ALL PRIVILEGES ON ALL SEQUENCES IN SCHEMA public TO \"" ++ username ++ "\""
  match env.exec s4 with
  | some e => ([Ev.stmt s1, Ev.stmt s2, Ev.stmt s3, Ev.stmt s4], some ("grant SEQUENCES failed: " ++ e))
  | none =>
  let s5 := "\n\t\tALTER DEFAULT PRIVILEGES IN SCHEMA public\n\t\tGRANT ALL PRIVILEGES ON TABLES TO \"" ++ username ++ "\""
  match env.exec s5 with
  | some e => ([Ev.stmt s1, Ev.stmt s2, Ev.stmt s3, Ev.stmt s4, Ev.stmt s5], some ("default privileges for TABLES failed: " ++ e))
  | none =>
  let s6 := "\n\t\tALTER DEFAULT PRIVILEGES IN SCHEMA public\n\t\tGRANT ALL PRIVILEGES ON SEQUENCES TO \"" ++ username ++ "\""
  match env.exec s6 with
  | some e => ([Ev.stmt s1, Ev.stmt s2, Ev.stmt s3, Ev.stmt s4, Ev.stmt s5, Ev.stmt s6], some ("default privileges for SEQUENCES failed: " ++ e))
  | none => ([Ev.stmt s1, Ev.stmt s2, Ev.stmt s3, Ev.stmt s4, Ev.stmt s5, Ev.stmt s6], none)

/-- Go `PostgresController.RevokeAll` from grantcontroller.go. -/
def RevokeAll (c : Ctl) (env : Env) (dbName username : String) : Res :=
  match validateDBName dbName with
  | some e => ([], some ("error validating database name: " ++ e))
  | none =>
  match validateUsername c username with
  | some e => ([], some ("error validating username: " ++ e))
  | none =>
  let s1 := "REVOKE CONNECT ON DATABASE \"" ++ dbName ++ "\" FROM \"" ++ username ++ "\""
  match env.exec s1 with
  | some e => ([Ev.stmt s1], some ("error revoking CONNECT: " ++ e))
  | none =>
  let s2 := "REVOKE ALL PRIVILEGES ON ALL TABLES IN SCHEMA public FROM \"" ++ username ++ "\""
  match env.exec s2 with
  | some e => ([Ev.stmt s1, Ev.stmt s2], some ("error revoking TABLE privileges: " ++ e))
  | none =>
  let s3 := "REVOKE ALL PRIVILEGES ON ALL SEQUENCES IN SCHEMA public FROM \"" ++ username ++ "\""
  match env.exec s3 with
  | some e => ([Ev.stmt s1, Ev.stmt s2, Ev.stmt s3], some ("error revoking SEQUENCE privileges: " ++ e))
  | none =>
  let s4 := "REVOKE USAGE, CREATE ON SCHEMA public FROM \"" ++ username ++ "\""
  match env.exec s4 with
  | some e => ([Ev.stmt s1, Ev.stmt s2, Ev.stmt s3, Ev.stmt s4], some ("error revoking schema privileges: " ++ e))
  | none =>
  let s5 := "\n\t\tALTER DEFAULT PRIVILEGES IN SCHEMA public\n\t\tREVOKE ALL PRIVILEGES ON TABLES FROM \"" ++ username ++ "\""
  match env.exec s5 with
  | some e => ([Ev.stmt s1, Ev.stmt s2, Ev.stmt s3, Ev.stmt s4, Ev.stmt s5], some ("error revoking default TABLE privileges: " ++ e))
  | none =>
  let s6 := "\n\t\tALTER DEFAULT PRIVILEGES IN SCHEMA public\n\t\tREVOKE ALL PRIVILEGES ON SEQUENCES FROM \"" ++ username ++ "\""
  match env.exec s6 with
  | some e => ([Ev.stmt s1, Ev.stmt s2, Ev.stmt s3, Ev.stmt s4, Ev.stmt s5, Ev.stmt s6], some ("error revoking default SEQUENCE privileges: " ++ e))
  | none => ([Ev.stmt s1, Ev.stmt s2, Ev.stmt s3, Ev.stmt s4, Ev.stmt s5, Ev.stmt s6], none)

/-- Go `PostgresController.TransferDatabaseOwnership` from dbcontroller.go:
no validation, one statement, error returned unwrapped. -/
def TransferDatabaseOwnership (env : Env) (dbName newOwner : String) : Res :=
  let s := "ALTER DATABASE \"" ++ dbName ++ "\" OWNER TO \"" ++ newOwner ++ "\""
  ([Ev.stmt s], env.exec s)

/-- Go `PostgresController.TransferPublicSchemaOwnership` from dbcontroller.go:
opens a connection scoped to `dbName`, issues the ALTER SCHEMA statement,
and (by `defer db.Close()`) closes the scoped connection before returning. -/
def TransferPublicSchemaOwnership (env : Env) (dbName newOwner : String) : Res :=
  match env.connOpen dbName with
  | some e => ([], some ("failed to connect to " ++ dbName ++ ": " ++ e))
  | none =>
    let s := "ALTER SCHEMA public OWNER TO \"" ++ newOwner ++ "\""
    ([Ev.connOpen dbName, Ev.connStmt dbName s, Ev.connClose dbName], env.connExec dbName s)

/-! ### Statement templates

The exact statement strings the Go code builds, named by the scope they act
at.  Templates marked `Modelled from the spec` never occur in the source (no
code path issues them); they are included only so the symmetric-inverse claim
can be stated, following the obvious GRANT/REVOKE syntactic symmetry. -/

/-- Template `GRANT p ON DATABASE "db" TO "u"` (Grant, CONNECT/TEMPORARY branch). -/
def sqlGrantDb (p dbName username : String) : String :=
  "GRANT " ++ p ++ " ON DATABASE \"" ++ dbName ++ "\" TO \"" ++ username ++ "\""

/-- Template `REVOKE p ON DATABASE "db" FROM "u"` (Revoke, CONNECT branch). -/
def sqlRevokeDb (p dbName username : String) : String :=
  "REVOKE " ++ p ++ " ON DATABASE \"" ++ dbName ++ "\" FROM \"" ++ username ++ "\""

/-- Template `GRANT p ON SCHEMA public TO "u"` (Grant, USAGE/CREATE branches). -/
def sqlGrantSchema (p username : String) : String :=
  "GRANT " ++ p ++ " ON SCHEMA public TO \"" ++ username ++ "\""

/-- Template `REVOKE p ON SCHEMA public FROM "u"` (Revoke, USAGE/CREATE tail). -/
def sqlRevokeSchema (p username : String) : String :=
  "REVOKE " ++ p ++ " ON SCHEMA public FROM \"" ++ username ++ "\""

/-- Template `GRANT p ON ALL TABLES IN SCHEMA public TO "u"` (Grant, default branch). -/
def sqlGrantAllTables (p username : String) : String :=
  "GRANT " ++ p ++ " ON ALL TABLES IN SCHEMA public TO \"" ++ username ++ "\""

/-- Template `REVOKE p ON ALL TABLES IN SCHEMA public FROM "u"` (Revoke, non-CONNECT). -/
def sqlRevokeAllTables (p username : String) : String :=
  "REVOKE " ++ p ++ " ON ALL TABLES IN SCHEMA public FROM \"" ++ username ++ "\""

/-- Template `GRANT EXECUTE ON ALL FUNCTIONS IN SCHEMA public TO "u"` (Grant, EXECUTE). -/
def sqlGrantAllFunctions (username : String) : String :=
  "GRANT EXECUTE ON ALL FUNCTIONS IN SCHEMA public TO \"" ++ username ++ "\""

/-- Default-privilege extension for future tables (Grant, default branch). -/
def sqlGrantFutureTables (p username : String) : String :=
  "ALTER DEFAULT PRIVILEGES IN SCHEMA public GRANT " ++ p ++ " ON TABLES TO \"" ++ username ++ "\""

/-- Default-privilege removal for future tables (Revoke, non-CONNECT);
the source writes this statement as a multi-line raw string. -/
def sqlRevokeFutureTables (p username : String) : String :=
  "\n\t\tALTER DEFAULT PRIVILEGES IN SCHEMA public\n\t\tREVOKE " ++ p ++ " ON TABLES FROM \"" ++ username ++ "\""

/-- Default-privilege extension for future sequences (Grant, USAGE branch). -/
def sqlGrantFutureSequences (username : String) : String :=
  "ALTER DEFAULT PRIVILEGES IN SCHEMA public GRANT USAGE ON SEQUENCES TO \"" ++ username ++ "\""

/-- Default-privilege extension for future functions (Grant, EXECUTE branch). -/
def sqlGrantFutureFunctions (username : String) : String :=
  "ALTER DEFAULT PRIVILEGES IN SCHEMA public GRANT EXECUTE ON FUNCTIONS TO \"" ++ username ++ "\""

/-- Modelled from the spec: the revoke counterpart of the EXECUTE grant on all
existing routines; no code path in `Revoke` issues it. -/
def sqlRevokeAllFunctions (username : String) : String :=
  "REVOKE EXECUTE ON ALL FUNCTIONS IN SCHEMA public FROM \"" ++ username ++ "\""

/-- Modelled from the spec: the revoke counterpart of the default-privilege
extension for future sequences; no code path in `Revoke` issues it. -/
def sqlRevokeFutureSequences (username : String) : String :=
  "ALTER DEFAULT PRIVILEGES IN SCHEMA public REVOKE USAGE ON SEQUENCES FROM \"" ++ username ++ "\""

/-- Modelled from the spec: the revoke counterpart of the default-privilege
extension for future functions; no code path in `Revoke` issues it. -/
def sqlRevokeFutureFunctions (username : String) : String :=
  "ALTER DEFAULT PRIVILEGES IN SCHEMA public REVOKE EXECUTE ON FUNCTIONS FROM \"" ++ username ++ "\""

/-! ### Spec-side statement plans (refinement targets) -/

/-- The statement list §4.2 of the spec prescribes for `Grant`, written from
the words of the spec (database-scoped privileges: one database-scope grant; USAGE:
schema USAGE then future sequences; CREATE: schema CREATE only; EXECUTE: all
existing routines then future routines; others: all tables then future
tables). -/
def grantSpecStmts (p dbName username : String) : List String :=
  if p = "CONNECT" ∨ p = "TEMPORARY" then [sqlGrantDb p dbName username]
  else if p = "USAGE" then [sqlGrantSchema "USAGE" username, sqlGrantFutureSequences username]
  else if p = "CREATE" then [sqlGrantSchema "CREATE" username]
  else if p = "EXECUTE" then [sqlGrantAllFunctions username, sqlGrantFutureFunctions username]
  else [sqlGrantAllTables p username, sqlGrantFutureTables p username]

/-- The statement list the spec prescribes for `Revoke`: CONNECT is
database-scope only; every other privilege is revoked from all existing
tables, then its default-privilege entry, then (USAGE/CREATE only) the
schema-level grant. -/
def revokeSpecStmts (p dbName username : String) : List String :=
  if p = "CONNECT" then [sqlRevokeDb "CONNECT" dbName username]
  else if p = "USAGE" ∨ p = "CREATE" then
    [sqlRevokeAllTables p username, sqlRevokeFutureTables p username, sqlRevokeSchema p username]
  else [sqlRevokeAllTables p username, sqlRevokeFutureTables p username]

/-! ### Scope abstraction (for the symmetric-inverse claim) -/

/-- The scopes a privilege statement can act at. -/
inductive Scope where
  | database
  | schema
  | allTables
  | allFunctions
  | futureTables
  | futureSequences
  | futureFunctions
  deriving DecidableEq, Repr

/-- The ordered scopes at which `Grant` issues statements, read off the branch
structure of `Grant` (one scope per statement). -/
def grantScopes (p : String) : List Scope :=
  if p = "CONNECT" ∨ p = "TEMPORARY" then [Scope.database]
  else if p = "USAGE" then [Scope.schema, Scope.futureSequences]
  else if p = "CREATE" then [Scope.schema]
  else if p = "EXECUTE" then [Scope.allFunctions, Scope.futureFunctions]
  else [Scope.allTables, Scope.futureTables]

/-- The ordered scopes at which `Revoke` issues statements, read off the
branch structure of `Revoke`. -/
def revokeScopes (p : String) : List Scope :=
  if p = "CONNECT" then [Scope.database]
  else if p = "USAGE" ∨ p = "CREATE" then [Scope.allTables, Scope.futureTables, Scope.schema]
  else [Scope.allTables, Scope.futureTables]

/-- The grant statement `Grant` issues at a given scope. -/
def grantStmtAt (sc : Scope) (p dbName username : String) : String :=
  match sc with
  | Scope.database => sqlGrantDb p dbName username
  | Scope.schema => sqlGrantSchema p username
  | Scope.allTables => sqlGrantAllTables p username
  | Scope.allFunctions => sqlGrantAllFunctions username
  | Scope.futureTables => sqlGrantFutureTables p username
  | Scope.futureSequences => sqlGrantFutureSequences username
  | Scope.futureFunctions => sqlGrantFutureFunctions username

/-- The revoke statement corresponding to each scope (for scopes `Revoke`
never issues, the spec-modelled counterpart). -/
def revokeStmtAt (sc : Scope) (p dbName username : String) : String :=
  match sc with
  | Scope.database => sqlRevokeDb p dbName username
  | Scope.schema => sqlRevokeSchema p username
  | Scope.allTables => sqlRevokeAllTables p username
  | Scope.allFunctions => sqlRevokeAllFunctions username
  | Scope.futureTables => sqlRevokeFutureTables p username
  | Scope.futureSequences => sqlRevokeFutureSequences username
  | Scope.futureFunctions => sqlRevokeFutureFunctions username

/-! ### GrantAll / RevokeAll plans -/

/-- The six statements `GrantAll` issues, in order. -/
def grantAllPlan (dbName username : String) : List String :=
  ["GRANT CONNECT ON DATABASE \"" ++ dbName ++ "\" TO \"" ++ username ++ "\"",
   "GRANT USAGE, CREATE ON SCHEMA public TO \"" ++ username ++ "\"",
   "GRANT ALL PRIVILEGES ON ALL TABLES IN SCHEMA public TO \"" ++ username ++ "\"",
   "GRANT ALL PRIVILEGES ON ALL SEQUENCES IN SCHEMA public TO \"" ++ username ++ "\"",
   "\n\t\tALTER DEFAULT PRIVILEGES IN SCHEMA public\n\t\tGRANT ALL PRIVILEGES ON TABLES TO \"" ++ username ++ "\"",
   "\n\t\tALTER DEFAULT PRIVILEGES IN SCHEMA public\n\t\tGRANT ALL PRIVILEGES ON SEQUENCES TO \"" ++ username ++ "\""]

/-- The step-identifying error prefixes of `GrantAll`, in step order. -/
def grantAllWraps : List String :=
  ["grant CONNECT failed: ", "grant SCHEMA privileges failed: ",
   "grant TABLES failed: ", "grant SEQUENCES failed: ",
   "default privileges for TABLES failed: ", "default privileges for SEQUENCES failed: "]

/-! ### Concrete environments for witnesses and counterexamples -/

/-- A server on which every statement, query and connection succeeds and every
existence query answers `true`. -/
def env0 : Env :=
  { exec := fun _ => none
    queryUserExists := fun _ => Except.ok true
    queryDbExists := fun _ => Except.ok true
    connOpen := fun _ => none
    connExec := fun _ _ => none }

/-- A controller with no extra reserved usernames. -/
def ctl0 : Ctl := { extraBadUsernames := [] }

/-- A server whose user-existence query answers `false`. -/
def envNoUser : Env := { env0 with queryUserExists := fun _ => Except.ok false }

/-- A server whose database-existence query answers `false`. -/
def envNoDb : Env := { env0 with queryDbExists := fun _ => Except.ok false }

/-- A server on which opening a scoped connection fails. -/
def envConnFail : Env := { env0 with connOpen := fun _ => some ("no route to host") }

/-- Template `ALTER DATABASE "db" OWNER TO "o"` (TransferDatabaseOwnership). -/
def sqlAlterDatabaseOwner (dbName newOwner : String) : String :=
  "ALTER DATABASE \"" ++ dbName ++ "\" OWNER TO \"" ++ newOwner ++ "\""

/-- Template `ALTER SCHEMA public OWNER TO "o"` (TransferPublicSchemaOwnership). -/
def sqlAlterSchemaOwner (newOwner : String) : String :=
  "ALTER SCHEMA public OWNER TO \"" ++ newOwner ++ "\""

/-! ## Theorems -/

/-- ASCII uppercasing of a character is idempotent. -/
theorem toUpperChar_idem (c : Char) : toUpperChar (toUpperChar c) = toUpperChar c := by
  by_cases h : 97 ≤ c.toNat ∧ c.toNat ≤ 122
  · have h1 : toUpperChar c = Char.ofNat (c.toNat - 32) := by
      unfold toUpperChar; rw [if_pos h]
    rw [h1]
    have key : ∀ k, 97 ≤ k → k ≤ 122 → toUpperChar (Char.ofNat (k - 32)) = Char.ofNat (k - 32) := by
      intro k hk1 hk2
      interval_cases k <;> decide
    exact key c.toNat h.1 h.2
  · have h1 : toUpperChar c = c := by
      unfold toUpperChar; rw [if_neg h]
    rw [h1, h1]

/-- Uppercasing a string is idempotent. -/
theorem stringsToUpper_idem (s : String) : stringsToUpper (stringsToUpper s) = stringsToUpper s := by
  unfold stringsToUpper
  simp only [List.map_map]
  congr 1
  exact List.map_congr_left (fun a _ => toUpperChar_idem a)

/-- Every catalog privilege name is already uppercase. -/
theorem stUp_cat : ∀ q ∈ grants.map Prod.fst, stringsToUpper q = q := by decide

/-- Every catalog privilege name passes `validateGrant`. -/
theorem vg_cat : ∀ q ∈ grants.map Prod.fst, validateGrant q = none := by decide


/-- C1: For every privilege in the catalog and every valid database name
and username, `Grant` issues exactly the statements of its target class, in
order, per §4.2 of the spec (`grantSpecStmts`), and succeeds. -/
theorem grant_statements_per_privilege :
    ∀ p ∈ grants.map Prod.fst, ∀ c env dbName username,
      validateDBName dbName = none → validateUsername c username = none →
      (∀ s, env.exec s = none) →
      Grant c env p dbName username = ((grantSpecStmts p dbName username).map Ev.stmt, none) := by
  intro p hp c env dbName username hdb hu hex
  have hp2 : p = "SELECT" ∨ p = "INSERT" ∨ p = "UPDATE" ∨ p = "DELETE" ∨ p = "TRUNCATE" ∨ p = "REFERENCES" ∨ p = "TRIGGER" ∨ p = "CONNECT" ∨ p = "TEMPORARY" ∨ p = "EXECUTE" ∨ p = "USAGE" ∨ p = "CREATE" := by simpa [grants] using hp
  rcases hp2 with rfl | rfl | rfl | rfl | rfl | rfl | rfl | rfl | rfl | rfl | rfl | rfl
  · simp [Grant, hdb, hu, hex, grantSpecStmts, sqlGrantDb, sqlGrantSchema, sqlGrantAllTables, sqlGrantAllFunctions, sqlGrantFutureTables, sqlGrantFutureSequences, sqlGrantFutureFunctions, sqlRevokeDb, sqlRevokeSchema, sqlRevokeAllTables, sqlRevokeFutureTables, stUp_cat "SELECT" (by decide), vg_cat "SELECT" (by decide)]
  · simp [Grant, hdb, hu, hex, grantSpecStmts, sqlGrantDb, sqlGrantSchema, sqlGrantAllTables, sqlGrantAllFunctions, sqlGrantFutureTables, sqlGrantFutureSequences, sqlGrantFutureFunctions, sqlRevokeDb, sqlRevokeSchema, sqlRevokeAllTables, sqlRevokeFutureTables, stUp_cat "INSERT" (by decide), vg_cat "INSERT" (by decide)]
  · simp [Grant, hdb, hu, hex, grantSpecStmts, sqlGrantDb, sqlGrantSchema, sqlGrantAllTables, sqlGrantAllFunctions, sqlGrantFutureTables, sqlGrantFutureSequences, sqlGrantFutureFunctions, sqlRevokeDb, sqlRevokeSchema, sqlRevokeAllTables, sqlRevokeFutureTables, stUp_cat "UPDATE" (by decide), vg_cat "UPDATE" (by decide)]
  · simp [Grant, hdb, hu, hex, grantSpecStmts, sqlGrantDb, sqlGrantSchema, sqlGrantAllTables, sqlGrantAllFunctions, sqlGrantFutureTables, sqlGrantFutureSequences, sqlGrantFutureFunctions, sqlRevokeDb, sqlRevokeSchema, sqlRevokeAllTables, sqlRevokeFutureTables, stUp_cat "DELETE" (by decide), vg_cat "DELETE" (by decide)]
  · simp [Grant, hdb, hu, hex, grantSpecStmts, sqlGrantDb, sqlGrantSchema, sqlGrantAllTables, sqlGrantAllFunctions, sqlGrantFutureTables, sqlGrantFutureSequences, sqlGrantFutureFunctions, sqlRevokeDb, sqlRevokeSchema, sqlRevokeAllTables, sqlRevokeFutureTables, stUp_cat "TRUNCATE" (by decide), vg_cat "TRUNCATE" (by decide)]
  · simp [Grant, hdb, hu, hex, grantSpecStmts, sqlGrantDb, sqlGrantSchema, sqlGrantAllTables, sqlGrantAllFunctions, sqlGrantFutureTables, sqlGrantFutureSequences, sqlGrantFutureFunctions, sqlRevokeDb, sqlRevokeSchema, sqlRevokeAllTables, sqlRevokeFutureTables, stUp_cat "REFERENCES" (by decide), vg_cat "REFERENCES" (by decide)]
  · simp [Grant, hdb, hu, hex, grantSpecStmts, sqlGrantDb, sqlGrantSchema, sqlGrantAllTables, sqlGrantAllFunctions, sqlGrantFutureTables, sqlGrantFutureSequences, sqlGrantFutureFunctions, sqlRevokeDb, sqlRevokeSchema, sqlRevokeAllTables, sqlRevokeFutureTables, stUp_cat "TRIGGER" (by decide), vg_cat "TRIGGER" (by decide)]
  · simp [Grant, hdb, hu, hex, grantSpecStmts, sqlGrantDb, sqlGrantSchema, sqlGrantAllTables, sqlGrantAllFunctions, sqlGrantFutureTables, sqlGrantFutureSequences, sqlGrantFutureFunctions, sqlRevokeDb, sqlRevokeSchema, sqlRevokeAllTables, sqlRevokeFutureTables, stUp_cat "CONNECT" (by decide), vg_cat "CONNECT" (by decide)]
  · simp [Grant, hdb, hu, hex, grantSpecStmts, sqlGrantDb, sqlGrantSchema, sqlGrantAllTables, sqlGrantAllFunctions, sqlGrantFutureTables, sqlGrantFutureSequences, sqlGrantFutureFunctions, sqlRevokeDb, sqlRevokeSchema, sqlRevokeAllTables, sqlRevokeFutureTables, stUp_cat "TEMPORARY" (by decide), vg_cat "TEMPORARY" (by decide)]
  · simp [Grant, hdb, hu, hex, grantSpecStmts, sqlGrantDb, sqlGrantSchema, sqlGrantAllTables, sqlGrantAllFunctions, sqlGrantFutureTables, sqlGrantFutureSequences, sqlGrantFutureFunctions, sqlRevokeDb, sqlRevokeSchema, sqlRevokeAllTables, sqlRevokeFutureTables, stUp_cat "EXECUTE" (by decide), vg_cat "EXECUTE" (by decide)]
  · simp [Grant, hdb, hu, hex, grantSpecStmts, sqlGrantDb, sqlGrantSchema, sqlGrantAllTables, sqlGrantAllFunctions, sqlGrantFutureTables, sqlGrantFutureSequences, sqlGrantFutureFunctions, sqlRevokeDb, sqlRevokeSchema, sqlRevokeAllTables, sqlRevokeFutureTables, stUp_cat "USAGE" (by decide), vg_cat "USAGE" (by decide)]
  · simp [Grant, hdb, hu, hex, grantSpecStmts, sqlGrantDb, sqlGrantSchema, sqlGrantAllTables, sqlGrantAllFunctions, sqlGrantFutureTables, sqlGrantFutureSequences, sqlGrantFutureFunctions, sqlRevokeDb, sqlRevokeSchema, sqlRevokeAllTables, sqlRevokeFutureTables, stUp_cat "CREATE" (by decide), vg_cat "CREATE" (by decide)]

/-- Witness for C1 at `p = "SELECT"` on an all-success server. -/
theorem grant_statements_per_privilege_witness :
    Grant ctl0 env0 "SELECT" "db" "u" = ((grantSpecStmts "SELECT" "db" "u").map Ev.stmt, none) :=
  grant_statements_per_privilege "SELECT" (by decide) ctl0 env0 "db" "u" (by decide) (by decide)
    (fun _ => rfl)

/-- C2: For every privilege in the catalog and every valid database name
and username, `Revoke` issues exactly the statements the spec prescribes
(`revokeSpecStmts`): CONNECT is database-scope only and returns after that one
statement; every other privilege is revoked from all existing tables, then its
default-privilege entry, then (USAGE/CREATE only) the schema-level grant. -/
theorem revoke_statements_per_privilege :
    ∀ p ∈ grants.map Prod.fst, ∀ c env dbName username,
      validateDBName dbName = none → validateUsername c username = none →
      (∀ s, env.exec s = none) →
      Revoke c env p dbName username = ((revokeSpecStmts p dbName username).map Ev.stmt, none) := by
  intro p hp c env dbName username hdb hu hex
  have hp2 : p = "SELECT" ∨ p = "INSERT" ∨ p = "UPDATE" ∨ p = "DELETE" ∨ p = "TRUNCATE" ∨ p = "REFERENCES" ∨ p = "TRIGGER" ∨ p = "CONNECT" ∨ p = "TEMPORARY" ∨ p = "EXECUTE" ∨ p = "USAGE" ∨ p = "CREATE" := by simpa [grants] using hp
  rcases hp2 with rfl | rfl | rfl | rfl | rfl | rfl | rfl | rfl | rfl | rfl | rfl | rfl
  · simp [Revoke, hdb, hu, hex, revokeSpecStmts, sqlGrantDb, sqlGrantSchema, sqlGrantAllTables, sqlGrantAllFunctions, sqlGrantFutureTables, sqlGrantFutureSequences, sqlGrantFutureFunctions, sqlRevokeDb, sqlRevokeSchema, sqlRevokeAllTables, sqlRevokeFutureTables, stUp_cat "SELECT" (by decide), vg_cat "SELECT" (by decide)]
  · simp [Revoke, hdb, hu, hex, revokeSpecStmts, sqlGrantDb, sqlGrantSchema, sqlGrantAllTables, sqlGrantAllFunctions, sqlGrantFutureTables, sqlGrantFutureSequences, sqlGrantFutureFunctions, sqlRevokeDb, sqlRevokeSchema, sqlRevokeAllTables, sqlRevokeFutureTables, stUp_cat "INSERT" (by decide), vg_cat "INSERT" (by decide)]
  · simp [Revoke, hdb, hu, hex, revokeSpecStmts, sqlGrantDb, sqlGrantSchema, sqlGrantAllTables, sqlGrantAllFunctions, sqlGrantFutureTables, sqlGrantFutureSequences, sqlGrantFutureFunctions, sqlRevokeDb, sqlRevokeSchema, sqlRevokeAllTables, sqlRevokeFutureTables, stUp_cat "UPDATE" (by decide), vg_cat "UPDATE" (by decide)]
  · simp [Revoke, hdb, hu, hex, revokeSpecStmts, sqlGrantDb, sqlGrantSchema, sqlGrantAllTables, sqlGrantAllFunctions, sqlGrantFutureTables, sqlGrantFutureSequences, sqlGrantFutureFunctions, sqlRevokeDb, sqlRevokeSchema, sqlRevokeAllTables, sqlRevokeFutureTables, stUp_cat "DELETE" (by decide), vg_cat "DELETE" (by decide)]
  · simp [Revoke, hdb, hu, hex, revokeSpecStmts, sqlGrantDb, sqlGrantSchema, sqlGrantAllTables, sqlGrantAllFunctions, sqlGrantFutureTables, sqlGrantFutureSequences, sqlGrantFutureFunctions, sqlRevokeDb, sqlRevokeSchema, sqlRevokeAllTables, sqlRevokeFutureTables, stUp_cat "TRUNCATE" (by decide), vg_cat "TRUNCATE" (by decide)]
  · simp [Revoke, hdb, hu, hex, revokeSpecStmts, sqlGrantDb, sqlGrantSchema, sqlGrantAllTables, sqlGrantAllFunctions, sqlGrantFutureTables, sqlGrantFutureSequences, sqlGrantFutureFunctions, sqlRevokeDb, sqlRevokeSchema, sqlRevokeAllTables, sqlRevokeFutureTables, stUp_cat "REFERENCES" (by decide), vg_cat "REFERENCES" (by decide)]
  · simp [Revoke, hdb, hu, hex, revokeSpecStmts, sqlGrantDb, sqlGrantSchema, sqlGrantAllTables, sqlGrantAllFunctions, sqlGrantFutureTables, sqlGrantFutureSequences, sqlGrantFutureFunctions, sqlRevokeDb, sqlRevokeSchema, sqlRevokeAllTables, sqlRevokeFutureTables, stUp_cat "TRIGGER" (by decide), vg_cat "TRIGGER" (by decide)]
  · simp [Revoke, hdb, hu, hex, revokeSpecStmts, sqlGrantDb, sqlGrantSchema, sqlGrantAllTables, sqlGrantAllFunctions, sqlGrantFutureTables, sqlGrantFutureSequences, sqlGrantFutureFunctions, sqlRevokeDb, sqlRevokeSchema, sqlRevokeAllTables, sqlRevokeFutureTables, stUp_cat "CONNECT" (by decide), vg_cat "CONNECT" (by decide)]
  · simp [Revoke, hdb, hu, hex, revokeSpecStmts, sqlGrantDb, sqlGrantSchema, sqlGrantAllTables, sqlGrantAllFunctions, sqlGrantFutureTables, sqlGrantFutureSequences, sqlGrantFutureFunctions, sqlRevokeDb, sqlRevokeSchema, sqlRevokeAllTables, sqlRevokeFutureTables, stUp_cat "TEMPORARY" (by decide), vg_cat "TEMPORARY" (by decide)]
  · simp [Revoke, hdb, hu, hex, revokeSpecStmts, sqlGrantDb, sqlGrantSchema, sqlGrantAllTables, sqlGrantAllFunctions, sqlGrantFutureTables, sqlGrantFutureSequences, sqlGrantFutureFunctions, sqlRevokeDb, sqlRevokeSchema, sqlRevokeAllTables, sqlRevokeFutureTables, stUp_cat "EXECUTE" (by decide), vg_cat "EXECUTE" (by decide)]
  · simp [Revoke, hdb, hu, hex, revokeSpecStmts, sqlGrantDb, sqlGrantSchema, sqlGrantAllTables, sqlGrantAllFunctions, sqlGrantFutureTables, sqlGrantFutureSequences, sqlGrantFutureFunctions, sqlRevokeDb, sqlRevokeSchema, sqlRevokeAllTables, sqlRevokeFutureTables, stUp_cat "USAGE" (by decide), vg_cat "USAGE" (by decide)]
  · simp [Revoke, hdb, hu, hex, revokeSpecStmts, sqlGrantDb, sqlGrantSchema, sqlGrantAllTables, sqlGrantAllFunctions, sqlGrantFutureTables, sqlGrantFutureSequences, sqlGrantFutureFunctions, sqlRevokeDb, sqlRevokeSchema, sqlRevokeAllTables, sqlRevokeFutureTables, stUp_cat "CREATE" (by decide), vg_cat "CREATE" (by decide)]

/-- Witness for C2 at `p = "USAGE"` on an all-success server. -/
theorem revoke_statements_per_privilege_witness :
    Revoke ctl0 env0 "USAGE" "db" "u" = ((revokeSpecStmts "USAGE" "db" "u").map Ev.stmt, none) :=
  revoke_statements_per_privilege "USAGE" (by decide) ctl0 env0 "db" "u" (by decide) (by decide)
    (fun _ => rfl)


/-- C3 counterexample: At privilege TEMPORARY (all-success server,
database "db", user "u"), `Grant` issues its single statement at database
scope, while the trace of `Revoke` consists of the table-scope and
future-table revokes and does not contain the corresponding database-scope
revoke statement: `Revoke` is not the symmetric inverse of `Grant`. -/
theorem revoke_not_symmetric_inverse_counterexample :
    (Grant ctl0 env0 "TEMPORARY" "db" "u").1
      = [Ev.stmt (grantStmtAt Scope.database "TEMPORARY" "db" "u")] ∧
    (Revoke ctl0 env0 "TEMPORARY" "db" "u").1
      = [Ev.stmt (sqlRevokeAllTables "TEMPORARY" "u"), Ev.stmt (sqlRevokeFutureTables "TEMPORARY" "u")] ∧
    Ev.stmt (revokeStmtAt Scope.database "TEMPORARY" "db" "u")
      ∉ (Revoke ctl0 env0 "TEMPORARY" "db" "u").1 := by
  decide

/-- C3 amended: For CONNECT, CREATE and the seven table-oriented
privileges, `Revoke` covers `Grant`: `Grant` issues one statement per scope in
`grantScopes`, `Revoke` one per scope in `revokeScopes`, and every scope at
which `Grant` issues a grant is a scope at which `Revoke` issues the
corresponding revoke.  (TEMPORARY, USAGE and EXECUTE are excluded: see the
counterexample.) -/
theorem revoke_inverts_grant_scopes_amended :
    ∀ p ∈ (["CONNECT", "CREATE", "SELECT", "INSERT", "UPDATE", "DELETE",
            "TRUNCATE", "REFERENCES", "TRIGGER"] : List String),
      ∀ c env dbName username,
      validateDBName dbName = none → validateUsername c username = none →
      (∀ s, env.exec s = none) →
      (Grant c env p dbName username).1
        = (grantScopes p).map (fun sc => Ev.stmt (grantStmtAt sc p dbName username)) ∧
      (Revoke c env p dbName username).1
        = (revokeScopes p).map (fun sc => Ev.stmt (revokeStmtAt sc p dbName username)) ∧
      ∀ sc ∈ grantScopes p, sc ∈ revokeScopes p := by
  intro p hp c env dbName username hdb hu hex
  have hp2 : p = "CONNECT" ∨ p = "CREATE" ∨ p = "SELECT" ∨ p = "INSERT" ∨ p = "UPDATE" ∨ p = "DELETE" ∨ p = "TRUNCATE" ∨ p = "REFERENCES" ∨ p = "TRIGGER" := by simpa using hp
  rcases hp2 with rfl | rfl | rfl | rfl | rfl | rfl | rfl | rfl | rfl
  · refine ⟨?_, ?_, ?_⟩
    · simp [Grant, hdb, hu, hex, grantScopes, grantStmtAt, sqlGrantDb, sqlGrantSchema, sqlGrantAllTables, sqlGrantAllFunctions, sqlGrantFutureTables, sqlGrantFutureSequences, sqlGrantFutureFunctions, sqlRevokeDb, sqlRevokeSchema, sqlRevokeAllTables, sqlRevokeFutureTables, sqlRevokeAllFunctions, sqlRevokeFutureSequences, sqlRevokeFutureFunctions, stUp_cat "CONNECT" (by decide), vg_cat "CONNECT" (by decide)]
    · simp [Revoke, hdb, hu, hex, revokeScopes, revokeStmtAt, sqlGrantDb, sqlGrantSchema, sqlGrantAllTables, sqlGrantAllFunctions, sqlGrantFutureTables, sqlGrantFutureSequences, sqlGrantFutureFunctions, sqlRevokeDb, sqlRevokeSchema, sqlRevokeAllTables, sqlRevokeFutureTables, sqlRevokeAllFunctions, sqlRevokeFutureSequences, sqlRevokeFutureFunctions, stUp_cat "CONNECT" (by decide), vg_cat "CONNECT" (by decide)]
    · decide
  · refine ⟨?_, ?_, ?_⟩
    · simp [Grant, hdb, hu, hex, grantScopes, grantStmtAt, sqlGrantDb, sqlGrantSchema, sqlGrantAllTables, sqlGrantAllFunctions, sqlGrantFutureTables, sqlGrantFutureSequences, sqlGrantFutureFunctions, sqlRevokeDb, sqlRevokeSchema, sqlRevokeAllTables, sqlRevokeFutureTables, sqlRevokeAllFunctions, sqlRevokeFutureSequences, sqlRevokeFutureFunctions, stUp_cat "CREATE" (by decide), vg_cat "CREATE" (by decide)]
    · simp [Revoke, hdb, hu, hex, revokeScopes, revokeStmtAt, sqlGrantDb, sqlGrantSchema, sqlGrantAllTables, sqlGrantAllFunctions, sqlGrantFutureTables, sqlGrantFutureSequences, sqlGrantFutureFunctions, sqlRevokeDb, sqlRevokeSchema, sqlRevokeAllTables, sqlRevokeFutureTables, sqlRevokeAllFunctions, sqlRevokeFutureSequences, sqlRevokeFutureFunctions, stUp_cat "CREATE" (by decide), vg_cat "CREATE" (by decide)]
    · decide
  · refine ⟨?_, ?_, ?_⟩
    · simp [Grant, hdb, hu, hex, grantScopes, grantStmtAt, sqlGrantDb, sqlGrantSchema, sqlGrantAllTables, sqlGrantAllFunctions, sqlGrantFutureTables, sqlGrantFutureSequences, sqlGrantFutureFunctions, sqlRevokeDb, sqlRevokeSchema, sqlRevokeAllTables, sqlRevokeFutureTables, sqlRevokeAllFunctions, sqlRevokeFutureSequences, sqlRevokeFutureFunctions, stUp_cat "SELECT" (by decide), vg_cat "SELECT" (by decide)]
    · simp [Revoke, hdb, hu, hex, revokeScopes, revokeStmtAt, sqlGrantDb, sqlGrantSchema, sqlGrantAllTables, sqlGrantAllFunctions, sqlGrantFutureTables, sqlGrantFutureSequences, sqlGrantFutureFunctions, sqlRevokeDb, sqlRevokeSchema, sqlRevokeAllTables, sqlRevokeFutureTables, sqlRevokeAllFunctions, sqlRevokeFutureSequences, sqlRevokeFutureFunctions, stUp_cat "SELECT" (by decide), vg_cat "SELECT" (by decide)]
    · decide
  · refine ⟨?_, ?_, ?_⟩
    · simp [Grant, hdb, hu, hex, grantScopes, grantStmtAt, sqlGrantDb, sqlGrantSchema, sqlGrantAllTables, sqlGrantAllFunctions, sqlGrantFutureTables, sqlGrantFutureSequences, sqlGrantFutureFunctions, sqlRevokeDb, sqlRevokeSchema, sqlRevokeAllTables, sqlRevokeFutureTables, sqlRevokeAllFunctions, sqlRevokeFutureSequences, sqlRevokeFutureFunctions, stUp_cat "INSERT" (by decide), vg_cat "INSERT" (by decide)]
    · simp [Revoke, hdb, hu, hex, revokeScopes, revokeStmtAt, sqlGrantDb, sqlGrantSchema, sqlGrantAllTables, sqlGrantAllFunctions, sqlGrantFutureTables, sqlGrantFutureSequences, sqlGrantFutureFunctions, sqlRevokeDb, sqlRevokeSchema, sqlRevokeAllTables, sqlRevokeFutureTables, sqlRevokeAllFunctions, sqlRevokeFutureSequences, sqlRevokeFutureFunctions, stUp_cat "INSERT" (by decide), vg_cat "INSERT" (by decide)]
    · decide
  · refine ⟨?_, ?_, ?_⟩
    · simp [Grant, hdb, hu, hex, grantScopes, grantStmtAt, sqlGrantDb, sqlGrantSchema, sqlGrantAllTables, sqlGrantAllFunctions, sqlGrantFutureTables, sqlGrantFutureSequences, sqlGrantFutureFunctions, sqlRevokeDb, sqlRevokeSchema, sqlRevokeAllTables, sqlRevokeFutureTables, sqlRevokeAllFunctions, sqlRevokeFutureSequences, sqlRevokeFutureFunctions, stUp_cat "UPDATE" (by decide), vg_cat "UPDATE" (by decide)]
    · simp [Revoke, hdb, hu, hex, revokeScopes, revokeStmtAt, sqlGrantDb, sqlGrantSchema, sqlGrantAllTables, sqlGrantAllFunctions, sqlGrantFutureTables, sqlGrantFutureSequences, sqlGrantFutureFunctions, sqlRevokeDb, sqlRevokeSchema, sqlRevokeAllTables, sqlRevokeFutureTables, sqlRevokeAllFunctions, sqlRevokeFutureSequences, sqlRevokeFutureFunctions, stUp_cat "UPDATE" (by decide), vg_cat "UPDATE" (by decide)]
    · decide
  · refine ⟨?_, ?_, ?_⟩
    · simp [Grant, hdb, hu, hex, grantScopes, grantStmtAt, sqlGrantDb, sqlGrantSchema, sqlGrantAllTables, sqlGrantAllFunctions, sqlGrantFutureTables, sqlGrantFutureSequences, sqlGrantFutureFunctions, sqlRevokeDb, sqlRevokeSchema, sqlRevokeAllTables, sqlRevokeFutureTables, sqlRevokeAllFunctions, sqlRevokeFutureSequences, sqlRevokeFutureFunctions, stUp_cat "DELETE" (by decide), vg_cat "DELETE" (by decide)]
    · simp [Revoke, hdb, hu, hex, revokeScopes, revokeStmtAt, sqlGrantDb, sqlGrantSchema, sqlGrantAllTables, sqlGrantAllFunctions, sqlGrantFutureTables, sqlGrantFutureSequences, sqlGrantFutureFunctions, sqlRevokeDb, sqlRevokeSchema, sqlRevokeAllTables, sqlRevokeFutureTables, sqlRevokeAllFunctions, sqlRevokeFutureSequences, sqlRevokeFutureFunctions, stUp_cat "DELETE" (by decide), vg_cat "DELETE" (by decide)]
    · decide
  · refine ⟨?_, ?_, ?_⟩
    · simp [Grant, hdb, hu, hex, grantScopes, grantStmtAt, sqlGrantDb, sqlGrantSchema, sqlGrantAllTables, sqlGrantAllFunctions, sqlGrantFutureTables, sqlGrantFutureSequences, sqlGrantFutureFunctions, sqlRevokeDb, sqlRevokeSchema, sqlRevokeAllTables, sqlRevokeFutureTables, sqlRevokeAllFunctions, sqlRevokeFutureSequences, sqlRevokeFutureFunctions, stUp_cat "TRUNCATE" (by decide), vg_cat "TRUNCATE" (by decide)]
    · simp [Revoke, hdb, hu, hex, revokeScopes, revokeStmtAt, sqlGrantDb, sqlGrantSchema, sqlGrantAllTables, sqlGrantAllFunctions, sqlGrantFutureTables, sqlGrantFutureSequences, sqlGrantFutureFunctions, sqlRevokeDb, sqlRevokeSchema, sqlRevokeAllTables, sqlRevokeFutureTables, sqlRevokeAllFunctions, sqlRevokeFutureSequences, sqlRevokeFutureFunctions, stUp_cat "TRUNCATE" (by decide), vg_cat "TRUNCATE" (by decide)]
    · decide
  · refine ⟨?_, ?_, ?_⟩
    · simp [Grant, hdb, hu, hex, grantScopes, grantStmtAt, sqlGrantDb, sqlGrantSchema, sqlGrantAllTables, sqlGrantAllFunctions, sqlGrantFutureTables, sqlGrantFutureSequences, sqlGrantFutureFunctions, sqlRevokeDb, sqlRevokeSchema, sqlRevokeAllTables, sqlRevokeFutureTables, sqlRevokeAllFunctions, sqlRevokeFutureSequences, sqlRevokeFutureFunctions, stUp_cat "REFERENCES" (by decide), vg_cat "REFERENCES" (by decide)]
    · simp [Revoke, hdb, hu, hex, revokeScopes, revokeStmtAt, sqlGrantDb, sqlGrantSchema, sqlGrantAllTables, sqlGrantAllFunctions, sqlGrantFutureTables, sqlGrantFutureSequences, sqlGrantFutureFunctions, sqlRevokeDb, sqlRevokeSchema, sqlRevokeAllTables, sqlRevokeFutureTables, sqlRevokeAllFunctions, sqlRevokeFutureSequences, sqlRevokeFutureFunctions, stUp_cat "REFERENCES" (by decide), vg_cat "REFERENCES" (by decide)]
    · decide
  · refine ⟨?_, ?_, ?_⟩
    · simp [Grant, hdb, hu, hex, grantScopes, grantStmtAt, sqlGrantDb, sqlGrantSchema, sqlGrantAllTables, sqlGrantAllFunctions, sqlGrantFutureTables, sqlGrantFutureSequences, sqlGrantFutureFunctions, sqlRevokeDb, sqlRevokeSchema, sqlRevokeAllTables, sqlRevokeFutureTables, sqlRevokeAllFunctions, sqlRevokeFutureSequences, sqlRevokeFutureFunctions, stUp_cat "TRIGGER" (by decide), vg_cat "TRIGGER" (by decide)]
    · simp [Revoke, hdb, hu, hex, revokeScopes, revokeStmtAt, sqlGrantDb, sqlGrantSchema, sqlGrantAllTables, sqlGrantAllFunctions, sqlGrantFutureTables, sqlGrantFutureSequences, sqlGrantFutureFunctions, sqlRevokeDb, sqlRevokeSchema, sqlRevokeAllTables, sqlRevokeFutureTables, sqlRevokeAllFunctions, sqlRevokeFutureSequences, sqlRevokeFutureFunctions, stUp_cat "TRIGGER" (by decide), vg_cat "TRIGGER" (by decide)]
    · decide

/-- Witness for the amended C3 at `p = "CONNECT"` on an all-success server. -/
theorem revoke_inverts_grant_scopes_amended_witness :
    (Grant ctl0 env0 "CONNECT" "db" "u").1
      = (grantScopes "CONNECT").map (fun sc => Ev.stmt (grantStmtAt sc "CONNECT" "db" "u")) ∧
    (Revoke ctl0 env0 "CONNECT" "db" "u").1
      = (revokeScopes "CONNECT").map (fun sc => Ev.stmt (revokeStmtAt sc "CONNECT" "db" "u")) ∧
    (∀ sc ∈ grantScopes "CONNECT", sc ∈ revokeScopes "CONNECT") :=
  revoke_inverts_grant_scopes_amended "CONNECT" (by decide) ctl0 env0 "db" "u"
    (by decide) (by decide) (fun _ => rfl)

/-- Any name outside the catalog fails `validateGrant` with `ErrInvalidGrant`. -/
theorem validateGrant_eq_some_of_not_mem (q : String) (hq : q ∉ grants.map Prod.fst) :
    validateGrant q = some ErrInvalidGrant := by
  unfold validateGrant
  by_cases h0 : q = ""
  · rw [if_pos h0]
  · rw [if_neg h0, if_neg]
    simp only [List.find?_isSome, not_exists]
    intro x hx
    exact hq (List.mem_map.mpr ⟨x, hx.1, by simpa using hx.2⟩)

/-- C4: For every privilege name whose uppercasing lies outside the fixed
catalog (the empty string included), `Grant` and `Revoke` issue zero server
statements and return an error; when the database name and username are valid,
that error is exactly the grant-validation error. -/
theorem invalid_privilege_rejected (c : Ctl) (env : Env) (name dbName username : String)
    (hp : stringsToUpper name ∉ grants.map Prod.fst) :
    (Grant c env name dbName username).1 = [] ∧
    (Revoke c env name dbName username).1 = [] ∧
    (Grant c env name dbName username).2.isSome = true ∧
    (Revoke c env name dbName username).2.isSome = true ∧
    (validateDBName dbName = none → validateUsername c username = none →
      Grant c env name dbName username = ([], some ("error validating grant: " ++ ErrInvalidGrant)) ∧
      Revoke c env name dbName username = ([], some ("error validating grant: " ++ ErrInvalidGrant))) := by
  have hvg : validateGrant (stringsToUpper name) = some ErrInvalidGrant :=
    validateGrant_eq_some_of_not_mem _ hp
  rcases hdb : validateDBName dbName with _ | e1
  · rcases huv : validateUsername c username with _ | e2
    · simp [Grant, Revoke, hdb, huv, hvg]
    · simp [Grant, Revoke, hdb, huv]
  · simp [Grant, Revoke, hdb]

/-- Witness for C4 at the empty privilege name. -/
theorem invalid_privilege_rejected_witness :
    (Grant ctl0 env0 "" "db" "u").1 = [] ∧
    (Revoke ctl0 env0 "" "db" "u").1 = [] ∧
    (Grant ctl0 env0 "" "db" "u").2.isSome = true ∧
    (Revoke ctl0 env0 "" "db" "u").2.isSome = true ∧
    (validateDBName "db" = none → validateUsername ctl0 "u" = none →
      Grant ctl0 env0 "" "db" "u" = ([], some ("error validating grant: " ++ ErrInvalidGrant)) ∧
      Revoke ctl0 env0 "" "db" "u" = ([], some ("error validating grant: " ++ ErrInvalidGrant))) :=
  invalid_privilege_rejected ctl0 env0 "" "db" "u" (by decide)

/-- C8: `Grant` and `Revoke` are case-insensitive in the privilege name:
calling them with any name behaves identically to calling them with its
uppercased form, for every environment and every pair of identifiers. -/
theorem grant_revoke_case_insensitive (c : Ctl) (env : Env) (name dbName username : String) :
    Grant c env name dbName username = Grant c env (stringsToUpper name) dbName username ∧
    Revoke c env name dbName username = Revoke c env (stringsToUpper name) dbName username := by
  constructor
  · simp only [Grant, stringsToUpper_idem]
  · simp only [Revoke, stringsToUpper_idem]


/-- C5: When validation and both existence checks pass, `GrantAll` on an
all-success server issues exactly the six statements of `grantAllPlan` in
order and succeeds; and if the first failing statement is step `i`, it issues
exactly the first `i+1` statements and returns the step-identified error,
issuing none of the later statements. -/
theorem grantAll_six_statements (c : Ctl) (env : Env) (dbName username : String)
    (hdb : validateDBName dbName = none) (hu : validateUsername c username = none)
    (huq : env.queryUserExists username = Except.ok true)
    (hdq : env.queryDbExists dbName = Except.ok true) :
    ((∀ s, env.exec s = none) →
      GrantAll c env dbName username = ((grantAllPlan dbName username).map Ev.stmt, none)) ∧
    (∀ i e, i < 6 →
      (∀ j, j < i → env.exec ((grantAllPlan dbName username).getD j "") = none) →
      env.exec ((grantAllPlan dbName username).getD i "") = some e →
      GrantAll c env dbName username =
        (((grantAllPlan dbName username).take (i + 1)).map Ev.stmt,
         some (grantAllWraps.getD i "" ++ e))) := by
  constructor
  · intro hex
    simp [GrantAll, UserExists, DatabaseExists, hdb, hu, huq, hdq, hex, grantAllPlan]
  · intro i e hi hpre hfail
    interval_cases i
    · simp only [grantAllPlan, List.getD_cons_zero, List.getD_cons_succ] at hfail
      simp [GrantAll, UserExists, DatabaseExists, hdb, hu, huq, hdq, hfail,
        grantAllPlan, grantAllWraps, List.getD_cons_zero, List.getD_cons_succ]
    · have p0 := hpre 0 (by omega)
      simp only [grantAllPlan, List.getD_cons_zero, List.getD_cons_succ] at p0 hfail
      simp [GrantAll, UserExists, DatabaseExists, hdb, hu, huq, hdq, p0, hfail,
        grantAllPlan, grantAllWraps, List.getD_cons_zero, List.getD_cons_succ]
    · have p0 := hpre 0 (by omega)
      have p1 := hpre 1 (by omega)
      simp only [grantAllPlan, List.getD_cons_zero, List.getD_cons_succ] at p0 p1 hfail
      simp [GrantAll, UserExists, DatabaseExists, hdb, hu, huq, hdq, p0, p1, hfail,
        grantAllPlan, grantAllWraps, List.getD_cons_zero, List.getD_cons_succ]
    · have p0 := hpre 0 (by omega)
      have p1 := hpre 1 (by omega)
      have p2 := hpre 2 (by omega)
      simp only [grantAllPlan, List.getD_cons_zero, List.getD_cons_succ] at p0 p1 p2 hfail
      simp [GrantAll, UserExists, DatabaseExists, hdb, hu, huq, hdq, p0, p1, p2, hfail,
        grantAllPlan, grantAllWraps, List.getD_cons_zero, List.getD_cons_succ]
    · have p0 := hpre 0 (by omega)
      have p1 := hpre 1 (by omega)
      have p2 := hpre 2 (by omega)
      have p3 := hpre 3 (by omega)
      simp only [grantAllPlan, List.getD_cons_zero, List.getD_cons_succ] at p0 p1 p2 p3 hfail
      simp [GrantAll, UserExists, DatabaseExists, hdb, hu, huq, hdq, p0, p1, p2, p3, hfail,
        grantAllPlan, grantAllWraps, List.getD_cons_zero, List.getD_cons_succ]
    · have p0 := hpre 0 (by omega)
      have p1 := hpre 1 (by omega)
      have p2 := hpre 2 (by omega)
      have p3 := hpre 3 (by omega)
      have p4 := hpre 4 (by omega)
      simp only [grantAllPlan, List.getD_cons_zero, List.getD_cons_succ] at p0 p1 p2 p3 p4 hfail
      simp [GrantAll, UserExists, DatabaseExists, hdb, hu, huq, hdq, p0, p1, p2, p3, p4, hfail,
        grantAllPlan, grantAllWraps, List.getD_cons_zero, List.getD_cons_succ]

/-- Witness for C5: the all-success case at concrete inputs. -/
theorem grantAll_six_statements_witness :
    GrantAll ctl0 env0 "db" "alice" = ((grantAllPlan "db" "alice").map Ev.stmt, none) :=
  (grantAll_six_statements ctl0 env0 "db" "alice" (by decide) (by decide) rfl rfl).1
    (fun _ => rfl)

/-- C6: `GrantAll` checks principal existence first and database existence
second, before issuing any statement: a missing principal yields
`ErrUserDoesNotExist` (whatever the database query would answer), a present
principal with a missing database yields `ErrDBDoesNotExist`; both with an
empty trace, and the two errors are distinguishable. -/
theorem grantAll_existence_prechecks (c : Ctl) (env : Env) (dbName username : String)
    (hdb : validateDBName dbName = none) (hu : validateUsername c username = none) :
    (env.queryUserExists username = Except.ok false →
      GrantAll c env dbName username = ([], some ErrUserDoesNotExist)) ∧
    (env.queryUserExists username = Except.ok true →
      env.queryDbExists dbName = Except.ok false →
      GrantAll c env dbName username = ([], some ErrDBDoesNotExist)) ∧
    ErrUserDoesNotExist ≠ ErrDBDoesNotExist := by
  refine ⟨?_, ?_, by decide⟩
  · intro hq
    simp [GrantAll, UserExists, DatabaseExists, hdb, hu, hq]
  · intro hq hd
    simp [GrantAll, UserExists, DatabaseExists, hdb, hu, hq, hd]

/-- Witness for C6: a missing principal and a missing database at concrete
inputs. -/
theorem grantAll_existence_prechecks_witness :
    GrantAll ctl0 envNoUser "db" "alice" = ([], some ErrUserDoesNotExist) ∧
    GrantAll ctl0 envNoDb "db" "alice" = ([], some ErrDBDoesNotExist) :=
  ⟨(grantAll_existence_prechecks ctl0 envNoUser "db" "alice" (by decide) (by decide)).1 rfl,
   (grantAll_existence_prechecks ctl0 envNoDb "db" "alice" (by decide) (by decide)).2.1 rfl rfl⟩

/-- C7: `TransferPublicSchemaOwnership` opens a connection scoped to the
target database, issues the ownership statement over it, and releases the
connection on every exit path: opened connections and closes balance in every
trace; when the open succeeds the trace is open, statement, close (whatever
the statement outcome); when the open fails no connection event occurs. -/
theorem schema_ownership_transfer_releases_connection (env : Env) (dbName newOwner : String) :
    ((TransferPublicSchemaOwnership env dbName newOwner).1.count (Ev.connOpen dbName)
      = (TransferPublicSchemaOwnership env dbName newOwner).1.count (Ev.connClose dbName)) ∧
    (env.connOpen dbName = none →
      (TransferPublicSchemaOwnership env dbName newOwner).1
        = [Ev.connOpen dbName, Ev.connStmt dbName (sqlAlterSchemaOwner newOwner),
           Ev.connClose dbName]) ∧
    (∀ e, env.connOpen dbName = some e →
      (TransferPublicSchemaOwnership env dbName newOwner).1 = []) := by
  refine ⟨?_, ?_, ?_⟩
  · cases h : env.connOpen dbName <;>
      simp [TransferPublicSchemaOwnership, h, List.count_cons]
  · intro h
    simp [TransferPublicSchemaOwnership, h, sqlAlterSchemaOwner]
  · intro e h
    simp [TransferPublicSchemaOwnership, h]

/-- Witness for C7: concrete successful-open and failed-open servers. -/
theorem schema_ownership_transfer_releases_connection_witness :
    (TransferPublicSchemaOwnership env0 "db" "o").1
      = [Ev.connOpen "db", Ev.connStmt "db" (sqlAlterSchemaOwner "o"), Ev.connClose "db"] ∧
    (TransferPublicSchemaOwnership envConnFail "db" "o").1 = [] :=
  ⟨(schema_ownership_transfer_releases_connection env0 "db" "o").2.1 rfl,
   (schema_ownership_transfer_releases_connection envConnFail "db" "o").2.2
     ("no route to host") rfl⟩

/-- C9: `RevokeAll` and `Revoke` validate identifier format before issuing
anything: for an empty or reserved database name, and for an empty or reserved
username, both return a validation error and issue zero server statements. -/
theorem revokeAll_revoke_validate_first (c : Ctl) (env : Env) (g dbName username : String) :
    ((dbName = "" ∨ contains baseDBs dbName = true) →
      (RevokeAll c env dbName username).1 = [] ∧
      (RevokeAll c env dbName username).2.isSome = true ∧
      (Revoke c env g dbName username).1 = [] ∧
      (Revoke c env g dbName username).2.isSome = true) ∧
    ((username = "" ∨ contains (baseUsers c) username = true) →
      (RevokeAll c env dbName username).1 = [] ∧
      (RevokeAll c env dbName username).2.isSome = true ∧
      (Revoke c env g dbName username).1 = [] ∧
      (Revoke c env g dbName username).2.isSome = true) := by
  constructor
  · intro h
    have hv : ∃ m, validateDBName dbName = some m := by
      rcases h with h | h
      · subst h; exact ⟨_, rfl⟩
      · by_cases h0 : dbName = ""
        · subst h0; exact ⟨_, rfl⟩
        · refine ⟨dbName ++ " is a disallowed database name", ?_⟩
          unfold validateDBName
          rw [if_neg h0, if_pos h]
    obtain ⟨m, hm⟩ := hv
    simp [RevokeAll, Revoke, hm]
  · intro h
    have hv : ∃ m, validateUsername c username = some m := by
      rcases h with h | h
      · subst h; exact ⟨_, rfl⟩
      · by_cases h0 : username = ""
        · subst h0; exact ⟨_, rfl⟩
        · refine ⟨"username " ++ username ++ " is reserved", ?_⟩
          unfold validateUsername
          rw [if_neg h0, if_pos h]
    obtain ⟨m, hm⟩ := hv
    rcases hdb2 : validateDBName dbName with _ | m2
    · simp [RevokeAll, Revoke, hdb2, hm]
    · simp [RevokeAll, Revoke, hdb2]

/-- Witness for C9: the reserved database name and the reserved username. -/
theorem revokeAll_revoke_validate_first_witness :
    ((RevokeAll ctl0 env0 "postgres" "u").1 = [] ∧
     (RevokeAll ctl0 env0 "postgres" "u").2.isSome = true ∧
     (Revoke ctl0 env0 "SELECT" "postgres" "u").1 = [] ∧
     (Revoke ctl0 env0 "SELECT" "postgres" "u").2.isSome = true) ∧
    ((RevokeAll ctl0 env0 "db" "postgres").1 = [] ∧
     (RevokeAll ctl0 env0 "db" "postgres").2.isSome = true ∧
     (Revoke ctl0 env0 "SELECT" "db" "postgres").1 = [] ∧
     (Revoke ctl0 env0 "SELECT" "db" "postgres").2.isSome = true) :=
  ⟨(revokeAll_revoke_validate_first ctl0 env0 "SELECT" "postgres" "u").1 (Or.inr (by decide)),
   (revokeAll_revoke_validate_first ctl0 env0 "SELECT" "db" "postgres").2 (Or.inr (by decide))⟩

/-- C10: The ownership-transfer operations perform no input validation:
for every input pair (empty and reserved names included) the behavior is fully
determined by the server collaborators, with the inputs embedded verbatim in
the issued statement, and any error comes only from the server or the
connection. -/
theorem ownership_transfer_no_validation (env : Env) (dbName newOwner : String) :
    TransferDatabaseOwnership env dbName newOwner
      = ([Ev.stmt (sqlAlterDatabaseOwner dbName newOwner)],
         env.exec (sqlAlterDatabaseOwner dbName newOwner)) ∧
    TransferPublicSchemaOwnership env dbName newOwner
      = (match env.connOpen dbName with
         | some e => ([], some ("failed to connect to " ++ dbName ++ ": " ++ e))
         | none =>
           ([Ev.connOpen dbName, Ev.connStmt dbName (sqlAlterSchemaOwner newOwner),
             Ev.connClose dbName],
            env.connExec dbName (sqlAlterSchemaOwner newOwner))) := by
  refine ⟨rfl, ?_⟩
  cases h : env.connOpen dbName <;>
    simp [TransferPublicSchemaOwnership, h, sqlAlterSchemaOwner]

end Pgctl
